import Mathlib

/-!
Verification development for the SIMPL-2021 single-pass compiler
(`simplc.c`, `scanner.c`, `symboltable.c`, `hashtable.c`, `valtypes.h`,
`token.c`).

The C sources are shallowly embedded: machine integers become `Nat`
(the quantities involved are small and non-negative in the source;
where C `int` arithmetic can go negative, `Int` with truncating
division `Int.tdiv` is used, matching C99 semantics), fatal errors
(`abort_c` / `leprintf`) become `Except` error results, and the
mutable globals (`token`, the code buffer, the label counter, the
symbol table) become explicit state threading with fuel for the
recursive-descent parser.

The code-generation primitives (`gen_1`, `gen_2`, `gen_2_label`,
`gen_label`, `get_label`, ...) are declared in `codegen.h` whose
implementation is not part of the analysed sources; per the design
document they are: Modelled from the spec: `emit(op[, arg])` appends
one instruction in stack-machine order to the open subroutine's
buffer, and `get_label()` returns a monotone fresh label.  They are
embedded as appending one abstract instruction to an output list and
as a counter increment, respectively.
-/

/- ------------------------------------------------------------------ -/
/- valtypes.h: the 4-bit type bitset and its predicate macros          -/
/- ------------------------------------------------------------------ -/

def TYPE_NONE : Nat := 0

def TYPE_ARRAY : Nat := 1

def TYPE_BOOLEAN : Nat := 2

def TYPE_INTEGER : Nat := 4

def TYPE_CALLABLE : Nat := 8

/-- `IS_ARRAY_TYPE(type) (type & TYPE_ARRAY)` -/
def IS_ARRAY_TYPE (t : Nat) : Bool := t &&& TYPE_ARRAY != 0

/-- `IS_CALLABLE_TYPE(type) (type & TYPE_CALLABLE)` -/
def IS_CALLABLE_TYPE (t : Nat) : Bool := t &&& TYPE_CALLABLE != 0

/-- `IS_ARRAY(type) (IS_ARRAY_TYPE(type) && !IS_CALLABLE_TYPE(type))` -/
def IS_ARRAY (t : Nat) : Bool := IS_ARRAY_TYPE t && !IS_CALLABLE_TYPE t

/-- `IS_PROCEDURE(type) (!(type ^ TYPE_CALLABLE))` -/
def IS_PROCEDURE (t : Nat) : Bool := (t ^^^ TYPE_CALLABLE) == 0

/-- `IS_FUNCTION(type) (IS_CALLABLE_TYPE(type) && !IS_PROCEDURE(type))` -/
def IS_FUNCTION (t : Nat) : Bool := IS_CALLABLE_TYPE t && !IS_PROCEDURE t

/-- `IS_VARIABLE(type) (type >= 2 && type <= 5)` -/
def IS_VARIABLE (t : Nat) : Bool := decide (2 ≤ t ∧ t ≤ 5)

/-- `IS_INTEGER_TYPE(type) (type & TYPE_INTEGER)` -/
def IS_INTEGER_TYPE (t : Nat) : Bool := t &&& TYPE_INTEGER != 0

/-- `IS_BOOLEAN_TYPE(type) (type & TYPE_BOOLEAN)` -/
def IS_BOOLEAN_TYPE (t : Nat) : Bool := t &&& TYPE_BOOLEAN != 0

/- ------------------------------------------------------------------ -/
/- symboltable.h / symboltable.c: identifier properties, two scopes    -/
/- ------------------------------------------------------------------ -/

/-- `IDprop`: the properties attached to a name in the symbol table
(type bitset, local-variable slot offset, and for callables the
parameter count and parameter types). -/
structure IDprop where
  type : Nat
  offset : Nat
  nparams : Nat
  params : List Nat
deriving DecidableEq, Repr

/-- The observable content of one hash table of `hashtable.c`, as an
association list in bucket-chain order (newest entry first, exactly the
order in which `ht_insert` prepends and `ht_search` scans a chain).
The hashing, bucket array and rehashing of `hashtable.c` only
distribute entries over buckets; membership and the found value are
decided by `key_strcmp` string equality, which this list captures. -/
abbrev HTab := List (String × IDprop)

/-- `ht_search`: first entry whose key compares equal. -/
def ht_search : HTab → String → Option IDprop
  | [], _ => none
  | (k, v) :: rest, id => if k == id then some v else ht_search rest id

/-- `ht_insert`: fails (returns `none`, the
`HASH_TABLE_KEY_VALUE_PAIR_EXISTS` outcome) when the key is already
present, otherwise prepends the new pair. -/
def ht_insert (t : HTab) (id : String) (p : IDprop) : Option HTab :=
  if (ht_search t id).isSome then none else some ((id, p) :: t)

/-- The symbol-table state of `symboltable.c`: the active hash table
`table`, the `saved_table` pointer (global scope, `none` before any
subroutine was ever opened), and the running `curr_offset` counter. -/
structure SymTab where
  table : HTab
  saved : Option HTab
  curr_offset : Nat
deriving DecidableEq, Repr

/-- `init_symbol_table`: fresh global table, `saved_table = NULL`,
`curr_offset = 1`. -/
def init_symbol_table : SymTab :=
  { table := [], saved := none, curr_offset := 1 }

/-- `open_subroutine`: insert the subroutine name into the current
(global) table; on success save it, install a fresh active table and
reset `curr_offset` to 1. -/
def open_subroutine (st : SymTab) (id : String) (prop : IDprop) :
    Bool × SymTab :=
  match ht_insert st.table id prop with
  | none => (false, st)
  | some t' => (true, { table := [], saved := some t', curr_offset := 1 })

/-- `close_subroutine`: free the active table and reactivate the saved
one.  The assignment `saved_table = NULL` is commented out in the
source, so `saved_table` keeps pointing at the (reactivated) global
table, and `curr_offset` is left untouched. -/
def close_subroutine (st : SymTab) : SymTab :=
  match st.saved with
  | some g => { table := g, saved := some g, curr_offset := st.curr_offset }
  | none => st

/-- `find_name`: search the active table; on a miss, search
`saved_table` (when one exists) and accept the hit only if its entry is
callable. -/
def find_name (st : SymTab) (id : String) : Option IDprop :=
  match ht_search st.table id with
  | some p => some p
  | none =>
    match st.saved with
    | none => none
    | some g =>
      match ht_search g id with
      | some p => if IS_CALLABLE_TYPE p.type then some p else none
      | none => none

/-- `insert_name`: reject when `find_name` already resolves the name,
then insert into the active table; a variable entry receives
`curr_offset` as its offset and bumps the counter. -/
def insert_name (st : SymTab) (id : String) (prop : IDprop) :
    Bool × SymTab :=
  if (find_name st id).isSome then (false, st)
  else if (ht_search st.table id).isSome then (false, st)
  else
    let prop' :=
      if IS_VARIABLE prop.type then { prop with offset := st.curr_offset }
      else prop
    (true, { st with
              table := (id, prop') :: st.table,
              curr_offset :=
                if IS_VARIABLE prop.type then st.curr_offset + 1
                else st.curr_offset })

/-- `get_variables_width`: returns `curr_offset`. -/
def get_variables_width (st : SymTab) : Nat := st.curr_offset

/- ------------------------------------------------------------------ -/
/- C2                                                                  -/
/- ------------------------------------------------------------------ -/

/-- C2: with an open subroutine scope (`saved_table = some g`),
`find_name` returns the active-scope entry whenever the name is present
there; on an active miss it returns the global entry exactly when that
entry is callable, so every global callable is found and every global
non-callable absent from the active scope is reported missing. -/
theorem c2_find_semantics (st : SymTab) (g : HTab) (n : String)
    (hopen : st.saved = some g) :
    (∀ p, ht_search st.table n = some p → find_name st n = some p) ∧
    (ht_search st.table n = none →
      find_name st n =
        match ht_search g n with
        | some p => if IS_CALLABLE_TYPE p.type then some p else none
        | none => none) ∧
    (∀ p, ht_search st.table n = none → ht_search g n = some p →
      IS_CALLABLE_TYPE p.type = true → find_name st n = some p) ∧
    (∀ p, ht_search st.table n = none → ht_search g n = some p →
      IS_CALLABLE_TYPE p.type = false → find_name st n = none) := by
  refine ⟨?_, ?_, ?_, ?_⟩
  · intro p hp
    unfold find_name
    rw [hp]
  · intro hmiss
    unfold find_name
    rw [hmiss, hopen]
  · intro p hmiss hg hc
    unfold find_name
    rw [hmiss, hopen]
    simp [hg, hc]
  · intro p hmiss hg hc
    unfold find_name
    rw [hmiss, hopen]
    simp [hg, hc]

def c2_callable_prop : IDprop := { type := 8, offset := 0, nparams := 0, params := [] }

def c2_var_prop : IDprop := { type := 4, offset := 1, nparams := 0, params := [] }

def c2_local_prop : IDprop := { type := 2, offset := 1, nparams := 0, params := [] }

def c2_state : SymTab :=
  { table := [("x", c2_local_prop)],
    saved := some [("f", c2_callable_prop), ("v", c2_var_prop)],
    curr_offset := 2 }

/-- C2 witness: in a concrete state with active scope `{x}` and global
scope `{f : callable, v : integer variable}`, `find x` hits the active
entry, `find f` resolves to the global callable, and `find v` fails. -/
theorem c2_find_semantics_witness :
    find_name c2_state "x" = some c2_local_prop ∧
    find_name c2_state "f" = some c2_callable_prop ∧
    find_name c2_state "v" = none := by
  refine ⟨?_, ?_, ?_⟩
  · exact (c2_find_semantics c2_state _ "x" rfl).1 c2_local_prop (by decide)
  · exact (c2_find_semantics c2_state _ "f" rfl).2.2.1 c2_callable_prop
      (by decide) (by decide) (by decide)
  · exact (c2_find_semantics c2_state _ "v" rfl).2.2.2 c2_var_prop
      (by decide) (by decide) (by decide)

/- ------------------------------------------------------------------ -/
/- C6                                                                  -/
/- ------------------------------------------------------------------ -/

def c6_global : HTab := [("f", { type := 8, offset := 0, nparams := 0, params := [] })]

def c6_state : SymTab := { table := [], saved := some c6_global, curr_offset := 1 }

def c6_prop : IDprop := { type := 4, offset := 0, nparams := 0, params := [] }

/-- C6 counterexample: with an open (empty) subroutine scope and a
global scope holding only the callable `f`, `insert_name "f"` reports a
duplicate even though `"f"` does not exist in the scope being inserted
into (the active scope), refuting "duplicate if and only if the name
already exists in the scope being inserted into" and "inserting a fresh
local name inside a subroutine succeeds regardless of what the global
scope contains". -/
theorem c6_counterexample :
    (insert_name c6_state "f" c6_prop).1 = false ∧
    ht_search c6_state.table "f" = none := by
  exact ⟨by decide, by decide⟩

/-- C6 amended: `insert_name` returns duplicate exactly when the name
is already visible to `find_name` in the pre-state — present in the
active scope, or (when a subroutine scope is open) present in the
global scope with callable type.  A fresh local therefore inserts
successfully iff its name does not collide with a visible global
callable. -/
theorem c6_duplicate_iff_visible (st : SymTab) (id : String) (p : IDprop) :
    (insert_name st id p).1 = false ↔ (find_name st id).isSome := by
  unfold insert_name
  by_cases h : (find_name st id).isSome
  · simp [h]
  · have hact : ht_search st.table id = none := by
      unfold find_name at h
      cases hs : ht_search st.table id with
      | none => rfl
      | some q => rw [hs] at h; simp at h
    simp [h, hact]

/- ------------------------------------------------------------------ -/
/- C7                                                                  -/
/- ------------------------------------------------------------------ -/

/-- One symbol-table operation, as issued by the parser. -/
inductive SymOp where
  | ins (id : String) (p : IDprop)
  | openSub (id : String) (p : IDprop)
  | closeSub
deriving DecidableEq, Repr

def runOp (st : SymTab) : SymOp → SymTab
  | .ins id p => (insert_name st id p).2
  | .openSub id p => (open_subroutine st id p).2
  | .closeSub => close_subroutine st

def runOps (st : SymTab) (ops : List SymOp) : SymTab :=
  ops.foldl runOp st

def c7_callable : IDprop := { type := 8, offset := 1, nparams := 1, params := [4] }

def c7_var : IDprop := { type := 4, offset := 0, nparams := 0, params := [] }

/-- The state after `define f(integer a)` has been fully processed:
open the subroutine `f`, insert its parameter `a`, close the scope. -/
def c7_after_funcdef : SymTab :=
  runOps init_symbol_table
    [.openSub "f" c7_callable, .ins "a" c7_var, .closeSub]

/-- C7 counterexample: after one subroutine (with one parameter) has
been opened and closed, the very first successful insertion of a
variable entry into the global scope — a scope whose lifetime started
at `init` and that never closed — receives offset 2, not 1, because
`close_subroutine` does not restore `curr_offset`; likewise
`get_variables_width` returns 2 although no variable was ever inserted
into the global scope.  The conjuncts pin the whole run: the global
table holds only the callable `f`, yet inserting the fresh variable
`x` succeeds with offset 2. -/
theorem c7_counterexample :
    c7_after_funcdef.table = [("f", c7_callable)] ∧
    get_variables_width c7_after_funcdef = 2 ∧
    (insert_name c7_after_funcdef "x" c7_var).1 = true ∧
    ht_search (insert_name c7_after_funcdef "x" c7_var).2.table "x" =
      some { type := 4, offset := 2, nparams := 0, params := [] } := by
  exact ⟨by decide, by decide, by decide, by decide⟩

/-- The offsets handed out to successful variable insertions, in
order, along a run of `insert_name` calls. -/
def assignedOffsets (st : SymTab) : List (String × IDprop) → List Nat
  | [] => []
  | (id, p) :: rest =>
    let r := insert_name st id p
    if r.1 && IS_VARIABLE p.type then st.curr_offset :: assignedOffsets r.2 rest
    else assignedOffsets r.2 rest

/-- The number of successful variable insertions along a run. -/
def countVarInserts (st : SymTab) : List (String × IDprop) → Nat
  | [] => 0
  | (id, p) :: rest =>
    let r := insert_name st id p
    if r.1 && IS_VARIABLE p.type then countVarInserts r.2 rest + 1
    else countVarInserts r.2 rest

/-- A run of plain insertions. -/
def runInserts (st : SymTab) (ops : List (String × IDprop)) : SymTab :=
  ops.foldl (fun s op => (insert_name s op.1 op.2).2) st

theorem countVarInserts_cons (st : SymTab) (id : String) (p : IDprop)
    (tl : List (String × IDprop)) :
    countVarInserts st ((id, p) :: tl) =
      if (insert_name st id p).1 && IS_VARIABLE p.type then
        countVarInserts (insert_name st id p).2 tl + 1
      else countVarInserts (insert_name st id p).2 tl := rfl

theorem assignedOffsets_cons (st : SymTab) (id : String) (p : IDprop)
    (tl : List (String × IDprop)) :
    assignedOffsets st ((id, p) :: tl) =
      if (insert_name st id p).1 && IS_VARIABLE p.type then
        st.curr_offset :: assignedOffsets (insert_name st id p).2 tl
      else assignedOffsets (insert_name st id p).2 tl := rfl

theorem runInserts_cons (st : SymTab) (id : String) (p : IDprop)
    (tl : List (String × IDprop)) :
    runInserts st ((id, p) :: tl) = runInserts (insert_name st id p).2 tl := rfl

theorem insert_name_offset (st : SymTab) (id : String) (p : IDprop) :
    (insert_name st id p).2.curr_offset =
      if (insert_name st id p).1 && IS_VARIABLE p.type then
        st.curr_offset + 1
      else st.curr_offset := by
  unfold insert_name
  by_cases h1 : (find_name st id).isSome
  · simp [h1]
  · by_cases h2 : (ht_search st.table id).isSome
    · simp [h1, h2]
    · by_cases hv : IS_VARIABLE p.type <;> simp [h1, h2, hv]

theorem assignedOffsets_range (ops : List (String × IDprop)) :
    ∀ st : SymTab,
      assignedOffsets st ops =
        List.range' st.curr_offset (countVarInserts st ops) ∧
      (runInserts st ops).curr_offset =
        st.curr_offset + countVarInserts st ops := by
  induction ops with
  | nil => intro st; exact ⟨rfl, rfl⟩
  | cons hd tl ih =>
    intro st
    obtain ⟨id, p⟩ := hd
    have hco := insert_name_offset st id p
    by_cases hsucc : ((insert_name st id p).1 && IS_VARIABLE p.type) = true
    · rw [if_pos hsucc] at hco
      constructor
      · rw [assignedOffsets_cons, countVarInserts_cons, if_pos hsucc,
          if_pos hsucc, (ih _).1, hco, List.range'_succ]
      · rw [runInserts_cons, (ih _).2, hco, countVarInserts_cons,
          if_pos hsucc]
        omega
    · rw [if_neg hsucc] at hco
      constructor
      · rw [assignedOffsets_cons, countVarInserts_cons, if_neg hsucc,
          if_neg hsucc, (ih _).1, hco]
      · rw [runInserts_cons, (ih _).2, hco, countVarInserts_cons,
          if_neg hsucc]

/-- C7 amended: within a single scope **session** — a run of
`insert_name` calls starting when the counter is 1, i.e. right after
`init_symbol_table` or a successful `open_subroutine`, and not
interrupted by opening or closing a subroutine (`close_subroutine`
does not restore the counter, so the reactivated global scope resumes
from the closed subroutine's value, which is what the counterexample
exhibits) — the i-th successful insertion of a variable entry receives
offset i (the offsets are `[1, 2, ..., k]`, strictly increasing and
contiguous from 1), callable entries consume no offset, and
`get_variables_width` returns one more than the number of variables
inserted in the session.  The final conjuncts record that both scope
creators establish counter 1. -/
theorem c7_session_offsets (st : SymTab) (ops : List (String × IDprop))
    (h : st.curr_offset = 1) :
    assignedOffsets st ops = List.range' 1 (countVarInserts st ops) ∧
    get_variables_width (runInserts st ops) = 1 + countVarInserts st ops ∧
    init_symbol_table.curr_offset = 1 ∧
    (∀ g id p, (open_subroutine g id p).1 = true →
      (open_subroutine g id p).2.curr_offset = 1) := by
  refine ⟨?_, ?_, rfl, ?_⟩
  · have := (assignedOffsets_range ops st).1
    rwa [h] at this
  · have := (assignedOffsets_range ops st).2
    unfold get_variables_width
    rw [this, h, Nat.add_comm]
  · intro g id p hok
    unfold open_subroutine at hok ⊢
    cases hins : ht_insert g.table id p with
    | none => rw [hins] at hok; simp at hok
    | some t' => rfl

def c7_ops : List (String × IDprop) :=
  [("n", { type := 4, offset := 0, nparams := 0, params := [] }),
   ("g", { type := 8, offset := 0, nparams := 0, params := [] }),
   ("b", { type := 2, offset := 0, nparams := 0, params := [] })]

/-- C7 witness: starting from `init_symbol_table` (counter 1) and
inserting a variable `n`, a callable `g` and a variable `b`, the
assigned offsets are `[1, 2]` and the width is 3. -/
theorem c7_session_offsets_witness :
    assignedOffsets init_symbol_table c7_ops = [1, 2] ∧
    get_variables_width (runInserts init_symbol_table c7_ops) = 3 := by
  have h := c7_session_offsets init_symbol_table c7_ops rfl
  refine ⟨?_, ?_⟩
  · rw [h.1]
    decide
  · rw [h.2.1]
    decide

/- ------------------------------------------------------------------ -/
/- token.h / token.c: token kinds in declaration order                 -/
/- ------------------------------------------------------------------ -/

def TOK_EOF : Nat := 0

def TOK_ID : Nat := 1

def TOK_NUM : Nat := 2

def TOK_STR : Nat := 3

def TOK_ARRAY : Nat := 4

def TOK_BEGIN : Nat := 5

def TOK_BOOLEAN : Nat := 6

def TOK_CHILL : Nat := 7

def TOK_DEFINE : Nat := 8

def TOK_DO : Nat := 9

def TOK_ELSE : Nat := 10

def TOK_ELSIF : Nat := 11

def TOK_END : Nat := 12

def TOK_EXIT : Nat := 13

def TOK_FALSE : Nat := 14

def TOK_IF : Nat := 15

def TOK_INTEGER : Nat := 16

def TOK_NOT : Nat := 17

def TOK_PROGRAM : Nat := 18

def TOK_READ : Nat := 19

def TOK_THEN : Nat := 20

def TOK_TRUE : Nat := 21

def TOK_WHILE : Nat := 22

def TOK_WRITE : Nat := 23

def TOK_EQ : Nat := 24

def TOK_GE : Nat := 25

def TOK_GT : Nat := 26

def TOK_LE : Nat := 27

def TOK_LT : Nat := 28

def TOK_NE : Nat := 29

def TOK_MINUS : Nat := 30

def TOK_OR : Nat := 31

def TOK_PLUS : Nat := 32

def TOK_AND : Nat := 33

def TOK_DIV : Nat := 34

def TOK_MUL : Nat := 35

def TOK_MOD : Nat := 36

def TOK_AMPERSAND : Nat := 37

def TOK_LBRACK : Nat := 38

def TOK_RBRACK : Nat := 39

def TOK_COMMA : Nat := 40

def TOK_GETS : Nat := 41

def TOK_LPAR : Nat := 42

def TOK_RPAR : Nat := 43

def TOK_SEMICOLON : Nat := 44

def TOK_TO : Nat := 45

/-- `token_names` from `token.c`, indexed by token kind. -/
def token_names : List String :=
  ["end-of-file", "identifier", "number", "string", "'array'", "'begin'",
   "'boolean'", "'chill'", "'define'", "'do'", "'else'", "'elsif'", "'end'",
   "'exit'", "'false'", "'if'", "'integer'", "'not'", "'program'", "'read'",
   "'then'", "'true'", "'while'", "'write'", "'='", "'>='", "'>'", "'<='",
   "'<'", "'#'", "'-'", "'or'", "'+'", "'and'", "'/'", "'*'", "'mod'", "'&'",
   "'['", "']'", "','", "'<-'", "'('", "')'", "';'", "'->'"]

/-- `get_token_string`. -/
def get_token_string (t : Nat) : String := token_names.getD t ""

/- ------------------------------------------------------------------ -/
/- scanner.c: the reserved-word binary search of process_word          -/
/- ------------------------------------------------------------------ -/

/-- The sorted reserved-word table of `scanner.c` (23 entries).
Lexemes are `List Char`, the contents of the C `char` buffer. -/
def reserved : List (List Char × Nat) :=
  [(['a','n','d'], TOK_AND),
   (['a','r','r','a','y'], TOK_ARRAY),
   (['b','e','g','i','n'], TOK_BEGIN),
   (['b','o','o','l','e','a','n'], TOK_BOOLEAN),
   (['c','h','i','l','l'], TOK_CHILL),
   (['d','e','f','i','n','e'], TOK_DEFINE),
   (['d','o'], TOK_DO),
   (['e','l','s','e'], TOK_ELSE),
   (['e','l','s','i','f'], TOK_ELSIF),
   (['e','n','d'], TOK_END),
   (['e','x','i','t'], TOK_EXIT),
   (['f','a','l','s','e'], TOK_FALSE),
   (['i','f'], TOK_IF),
   (['i','n','t','e','g','e','r'], TOK_INTEGER),
   (['m','o','d'], TOK_MOD),
   (['n','o','t'], TOK_NOT),
   (['o','r'], TOK_OR),
   (['p','r','o','g','r','a','m'], TOK_PROGRAM),
   (['r','e','a','d'], TOK_READ),
   (['t','h','e','n'], TOK_THEN),
   (['t','r','u','e'], TOK_TRUE),
   (['w','h','i','l','e'], TOK_WHILE),
   (['w','r','i','t','e'], TOK_WRITE)]

/-- `NUM_RESERVED_WORDS = sizeof(reserved) / sizeof(ReservedWord)`. -/
def NUM_RESERVED_WORDS : Int := 23

theorem reserved_length : reserved.length = 23 := rfl

/-- `strcmp` on the byte values of two NUL-terminated strings:
negative, zero or positive according to the first differing
character. -/
def strcmp : List Char → List Char → Int
  | [], [] => 0
  | [], _ :: _ => -1
  | _ :: _, [] => 1
  | a :: as, b :: bs =>
    if a.toNat < b.toNat then -1
    else if b.toNat < a.toNat then 1
    else strcmp as bs

/-- Result of the reserved-word binary search: the matching keyword, an
identifier verdict, an out-of-range array access (index recorded), or
fuel exhaustion of the embedding. -/
inductive WordResult where
  | keyword (t : Nat)
  | ident
  | oobAccess (idx : Int)
  | outOfFuel
deriving DecidableEq, Repr

/-- The `while (low <= high)` binary-search loop of `process_word`,
with `mid` recomputed as `(low + high) / 2` (C truncating division) at
the end of each iteration.  Array accesses go through a total lookup:
an index outside `0..22` yields `oobAccess` instead of C's undefined
out-of-bounds read. -/
def wordSearch : Nat → List Char → Int → Int → Int → WordResult
  | 0, _, _, _, _ => .outOfFuel
  | fuel + 1, lex, low, high, mid =>
    if low ≤ high then
      match (if mid < 0 then none else reserved[mid.toNat]?) with
      | none => .oobAccess mid
      | some (w, t) =>
        let cmp := strcmp lex w
        if 0 < cmp then
          wordSearch fuel lex (mid + 1) high (Int.tdiv ((mid + 1) + high) 2)
        else if cmp < 0 then
          wordSearch fuel lex low (mid - 1) (Int.tdiv (low + (mid - 1)) 2)
        else .keyword t
    else .ident

/-- The keyword-vs-identifier decision of `process_word` for a scanned
lexeme: `low = 0`, `high = NUM_RESERVED_WORDS`, `mid = (low + high) / 2`.
-/
def process_word_classify (lex : List Char) : WordResult :=
  wordSearch 64 lex 0 NUM_RESERVED_WORDS
    (Int.tdiv (0 + NUM_RESERVED_WORDS) 2)

/-- C5: the binary search initialises `high` to `NUM_RESERVED_WORDS`
(23) instead of the last index 22.  For any lexeme that sorts after
`"write"` — here the single-letter identifier `x` and `zzz` — the loop
reaches `low = high = 23` and reads `reserved[23]`, one past the end of
the 23-entry table, so the out-of-range branch of the total embedding
IS reachable, refuting the claim that every index used is within
`0..22`.  For contrast, the reserved words themselves and lexemes not
sorting after `"write"` are classified in bounds, as the last two
conjuncts illustrate. -/
theorem c5_reserved_search_eval :
    process_word_classify ['x'] = .oobAccess 23 ∧
    process_word_classify ['z','z','z'] = .oobAccess 23 ∧
    process_word_classify ['w','r','i','t','e'] = .keyword TOK_WRITE ∧
    process_word_classify ['w','h','i','l','e'] = .keyword TOK_WHILE ∧
    process_word_classify ['f','o','o'] = .ident := by
  exact ⟨by decide, by decide, by decide, by decide, by decide⟩

/- ------------------------------------------------------------------ -/
/- scanner.c: process_number                                           -/
/- ------------------------------------------------------------------ -/

/-- `INT_MAX` for the 32-bit `int` of the target platform. -/
def INT_MAX : Nat := 2147483647

/-- C `isdigit` on a character. -/
def isdigitC (c : Char) : Bool := decide (48 ≤ c.toNat ∧ c.toNat ≤ 57)

/-- `ch - '0'`. -/
def digitVal (c : Char) : Nat := c.toNat - 48

/-- The scanning loop of `process_number`:
`for (num = 0; isdigit(ch); next_char()) { digit = ch - '0';
if (num > (INT_MAX - digit) / 10) leprintf("number too large");
else num = 10 * num + digit; }`.  The remaining (non-digit) input is
returned together with the accumulated value; `leprintf` terminates
the compiler, embedded as an error result. -/
def process_number_loop : List Char → Nat → Except String (Nat × List Char)
  | [], num => .ok (num, [])
  | c :: rest, num =>
    if isdigitC c then
      let digit := digitVal c
      if num > (INT_MAX - digit) / 10 then .error "number too large"
      else process_number_loop rest (10 * num + digit)
    else .ok (num, c :: rest)

/-- `process_number` on the pending input, starting from `num = 0`;
on success the value is stored into a `TOK_NUM` token. -/
def process_number (cs : List Char) : Except String (Nat × List Char) :=
  process_number_loop cs 0

/-- The decimal value of a digit string, continuing from an
accumulator. -/
def decValFrom (num : Nat) (cs : List Char) : Nat :=
  cs.foldl (fun a c => 10 * a + digitVal c) num

/-- The decimal value of a digit string. -/
def decVal (cs : List Char) : Nat := decValFrom 0 cs

theorem decValFrom_cons (num : Nat) (c : Char) (cs : List Char) :
    decValFrom num (c :: cs) = decValFrom (10 * num + digitVal c) cs := rfl

theorem decValFrom_ge (cs : List Char) :
    ∀ num : Nat, num ≤ decValFrom num cs := by
  induction cs with
  | nil => intro num; exact Nat.le_refl num
  | cons c cs ih =>
    intro num
    rw [decValFrom_cons]
    exact Nat.le_trans (by omega) (ih (10 * num + digitVal c))

theorem overflow_guard_iff (num digit : Nat) (hd : digit ≤ 9) :
    (INT_MAX - digit) / 10 < num ↔ INT_MAX < 10 * num + digit := by
  rw [Nat.div_lt_iff_lt_mul (by omega : 0 < 10)]
  unfold INT_MAX
  omega

theorem process_number_loop_spec (cs : List Char)
    (h : ∀ c ∈ cs, isdigitC c = true) :
    ∀ num : Nat, num ≤ INT_MAX →
      process_number_loop cs num =
        if decValFrom num cs ≤ INT_MAX then .ok (decValFrom num cs, [])
        else .error "number too large" := by
  induction cs with
  | nil =>
    intro num hnum
    unfold process_number_loop decValFrom
    simp [hnum]
  | cons c cs ih =>
    intro num hnum
    have hc : isdigitC c = true := h c (List.mem_cons_self c cs)
    have hd : digitVal c ≤ 9 := by
      unfold isdigitC at hc
      unfold digitVal
      simp at hc
      omega
    have hrest : ∀ x ∈ cs, isdigitC x = true := fun x hx =>
      h x (List.mem_cons_of_mem c hx)
    show (if isdigitC c then
            if num > (INT_MAX - digitVal c) / 10 then
              Except.error "number too large"
            else process_number_loop cs (10 * num + digitVal c)
          else .ok (num, c :: cs)) = _
    rw [hc, if_pos rfl]
    by_cases hover : (INT_MAX - digitVal c) / 10 < num
    · have hbig : INT_MAX < 10 * num + digitVal c :=
        (overflow_guard_iff num (digitVal c) hd).1 hover
      have hfin : INT_MAX < decValFrom num (c :: cs) := by
        rw [decValFrom_cons]
        exact Nat.lt_of_lt_of_le hbig (decValFrom_ge cs _)
      rw [if_pos hover, decValFrom_cons]
      rw [if_neg (by rw [← decValFrom_cons]; omega)]
    · have hok : 10 * num + digitVal c ≤ INT_MAX := by
        have := (overflow_guard_iff num (digitVal c) hd).2
        omega
      rw [if_neg hover, ih hrest (10 * num + digitVal c) hok, decValFrom_cons]

theorem decVal_take_le (cs : List Char) (k : Nat) :
    decVal (cs.take k) ≤ decVal cs := by
  unfold decVal decValFrom
  conv_rhs => rw [← List.take_append_drop k cs]
  rw [List.foldl_append]
  exact decValFrom_ge (cs.drop k) _

/-- C8: for a digit string, `process_number` returns a `TOK_NUM` value
equal to the decimal value of the digits exactly when that value is at
most `INT_MAX = 2^31 - 1`; any larger digit string dies with the fatal
error "number too large".  The final conjunct is the no-overflow
argument: when the scan succeeds, every intermediate accumulator (the
value of a prefix of the digits) is itself at most `INT_MAX`, so
`10 * num + digit` never exceeds `INT_MAX` and the C `int` arithmetic
cannot overflow (the guard `num > (INT_MAX - digit) / 10` is evaluated
before each extension). -/
theorem c8_number_overflow (cs : List Char)
    (h : ∀ c ∈ cs, isdigitC c = true) :
    (decVal cs ≤ INT_MAX → process_number cs = .ok (decVal cs, [])) ∧
    (INT_MAX < decVal cs → process_number cs = .error "number too large") ∧
    (decVal cs ≤ INT_MAX → ∀ k, decVal (cs.take k) ≤ INT_MAX) := by
  have hspec := process_number_loop_spec cs h 0 (by unfold INT_MAX; omega)
  refine ⟨?_, ?_, ?_⟩
  · intro hle
    unfold process_number
    rw [hspec]
    unfold decVal at hle
    rw [if_pos hle]
    rfl
  · intro hgt
    unfold process_number
    rw [hspec]
    unfold decVal at hgt
    rw [if_neg (by omega)]
  · intro hle k
    exact Nat.le_trans (decVal_take_le cs k) hle

/-- C8 witness: `2147483647` scans to the maximum value, `42` to 42,
and `2147483648` (the first value past `2^31 - 1`) is fatal. -/
theorem c8_number_overflow_witness :
    process_number ['2','1','4','7','4','8','3','6','4','7'] =
      .ok (2147483647, []) ∧
    process_number ['4','2'] = .ok (42, []) ∧
    process_number ['2','1','4','7','4','8','3','6','4','8'] =
      .error "number too large" := by
  refine ⟨?_, ?_, ?_⟩
  · have h := (c8_number_overflow ['2','1','4','7','4','8','3','6','4','7']
      (by decide)).1 (by decide)
    rwa [show decVal ['2','1','4','7','4','8','3','6','4','7'] = 2147483647
      from by decide] at h
  · have h := (c8_number_overflow ['4','2'] (by decide)).1 (by decide)
    rwa [show decVal ['4','2'] = 42 from by decide] at h
  · exact (c8_number_overflow ['2','1','4','7','4','8','3','6','4','8']
      (by decide)).2.1 (by decide)

/- ------------------------------------------------------------------ -/
/- simplc.c: tokens, instructions, parser state                        -/
/- ------------------------------------------------------------------ -/

/-- The `Token` struct: kind plus payloads (`value` for `TOK_NUM`,
`lexeme` for `TOK_ID`, `string` for `TOK_STR`). -/
structure Token where
  type : Nat
  value : Nat := 0
  lexeme : String := ""
  str : String := ""
deriving DecidableEq, Repr

/-- The JVM opcodes `simplc.c` passes to the emitter. -/
inductive JVMop where
  | RETURN | IRETURN | ARETURN | INEG | IADD | ISUB | IMUL | IDIV | IREM
  | IAND | IOR | IXOR | IASTORE | IALOAD | LDC | ILOAD | ALOAD | ISTORE
  | ASTORE | IFEQ | GOTO | IF_ICMPEQ | IF_ICMPNE | IF_ICMPGE | IF_ICMPGT
  | IF_ICMPLE | IF_ICMPLT
deriving DecidableEq, Repr

/-- One call into the code-generation interface, recorded in emission
order.  Modelled from the spec: each `gen_*` call appends one
instruction to the open subroutine's buffer (`emit(op[, arg])`), so the
buffer is the list of calls; `gen_cmp` is kept abstract as the
compare-and-branch idiom it expands to, `gen_call`, `gen_newarray`,
`gen_read`, `gen_print`, `gen_print_string` likewise. -/
inductive Instr where
  | gen1 (op : JVMop)
  | gen2 (op : JVMop) (arg : Nat)
  | gen2lab (op : JVMop) (lab : Nat)
  | genlabel (lab : Nat)
  | gencmp (op : JVMop)
  | gencall (id : String)
  | gennewarray (t : Nat)
  | genread (t : Nat)
  | genprint (t : Nat)
  | genprintstr (s : String)
deriving DecidableEq, Repr

/-- The `T_INT` array-type tag passed to `gen_newarray` (an opaque
constant of the emitter interface). -/
def T_INT : Nat := 10

/-- The fatal parser errors (`abort_c` codes and `check_types` /
`leprintf` failures); the embedding adds `outOfFuel` for exhausted
recursion fuel, which no theorem ever equates with a source error. -/
inductive CErr where
  | expectTok (t : Nat)
  | typeMismatch
  | unknownId (s : String)
  | notAnArrayE (s : String)
  | notAFunctionE (s : String)
  | notAProcedureE (s : String)
  | notAVariableE (s : String)
  | missingFuncArgList (s : String)
  | scalarExpected (s : String)
  | factorExpected
  | statementExpected
  | illegalArrayOp (s : String)
  | exprOrStringExpected
  | arrayAllocOrExprExpected
  | argListOrAssignExpected
  | tooManyArgs (s : String)
  | tooFewArgs (s : String)
  | takesNoArgs (s : String)
  | exitExprNotAllowedProc
  | missingExitExprFunc
  | unreachableE
  | outOfFuel
deriving DecidableEq, Repr

/-- The mutable context of the parser: the pending token stream (the
lookahead `token` is its head, `get_token` drops it), the symbol table
(read-only in the statement and expression productions embedded here),
the emitted instruction buffer, the `get_label` counter, and the
`return_type` global. -/
structure PState where
  toks : List Token
  sym : SymTab
  out : List Instr := []
  labelc : Nat := 0
  rt : Nat := TYPE_NONE
deriving DecidableEq, Repr

/-- The lookahead token (an exhausted stream reads as end-of-file). -/
def peek (st : PState) : Token := st.toks.headD { type := TOK_EOF }

/-- `get_token(&token)`. -/
def advance (st : PState) : PState := { st with toks := st.toks.tail }

/-- Append one instruction to the emission buffer. -/
def emit (st : PState) (i : Instr) : PState := { st with out := st.out ++ [i] }

/-- `get_label()`.  Modelled from the spec: monotone fresh label. -/
def get_label (st : PState) : Nat × PState :=
  (st.labelc, { st with labelc := st.labelc + 1 })

/-- `STARTS_FACTOR(toktype)`. -/
def STARTS_FACTOR (t : Nat) : Bool :=
  t == TOK_ID || t == TOK_NUM || t == TOK_LPAR || t == TOK_NOT ||
  t == TOK_TRUE || t == TOK_FALSE

/-- `STARTS_EXPR(toktype)`. -/
def STARTS_EXPR (t : Nat) : Bool :=
  t == TOK_ID || t == TOK_NUM || t == TOK_LPAR || t == TOK_NOT ||
  t == TOK_TRUE || t == TOK_FALSE || t == TOK_MINUS

/-- `IS_ADDOP(toktype) (toktype >= TOK_MINUS && toktype <= TOK_PLUS)`. -/
def IS_ADDOP (t : Nat) : Bool := decide (TOK_MINUS ≤ t ∧ t ≤ TOK_PLUS)

/-- `IS_MULOP(toktype) (toktype >= TOK_AND && toktype <= TOK_MOD)`. -/
def IS_MULOP (t : Nat) : Bool := decide (TOK_AND ≤ t ∧ t ≤ TOK_MOD)

/-- `IS_RELOP(toktype) (toktype >= TOK_EQ && toktype <= TOK_NE)`. -/
def IS_RELOP (t : Nat) : Bool := decide (TOK_EQ ≤ t ∧ t ≤ TOK_NE)

/-- `IS_TYPE_TOKEN(toktype)`. -/
def IS_TYPE_TOKEN (t : Nat) : Bool := t == TOK_BOOLEAN || t == TOK_INTEGER

/-- `IS_STATEMENT(toktype)`. -/
def IS_STATEMENT (t : Nat) : Bool :=
  t == TOK_EXIT || t == TOK_IF || t == TOK_ID || t == TOK_READ ||
  t == TOK_WHILE || t == TOK_WRITE

/-- `expect(type)`. -/
def expect (ty : Nat) (st : PState) : Except CErr PState :=
  if (peek st).type == ty then .ok (advance st) else .error (.expectTok ty)

/-- `expect_id(&id)`. -/
def expect_id (st : PState) : Except CErr (String × PState) :=
  if (peek st).type == TOK_ID then .ok ((peek st).lexeme, advance st)
  else .error (.expectTok TOK_ID)

/-- `check_types(found, expected, ...)`: succeeds iff the bitsets are
equal, otherwise the *incompatible types* fatal. -/
def check_types (found expected : Nat) : Except CErr Unit :=
  if found == expected then .ok () else .error .typeMismatch

mutual

/-- `<expr> = <simple> [<relop> <simple>]`, with comparison lowering. -/
def parse_expr : Nat → PState → Except CErr (Nat × PState)
  | 0, _ => .error .outOfFuel
  | fuel + 1, st =>
    match parse_simple fuel st with
    | .error e => .error e
    | .ok (t1, st) =>
      if IS_RELOP (peek st).type then
        let op := (peek st).type
        if IS_ARRAY t1 then .error (.illegalArrayOp (get_token_string op))
        else
          match parse_simple fuel (advance st) with
          | .error e => .error e
          | .ok (t2, st) =>
            if IS_ARRAY t2 then .error (.illegalArrayOp (get_token_string op))
            else if op == TOK_EQ || op == TOK_NE then
              match check_types t2 t1 with
              | .error e => .error e
              | .ok () =>
                let st := if op == TOK_EQ then emit st (.gencmp .IF_ICMPEQ)
                          else emit st (.gencmp .IF_ICMPNE)
                .ok (TYPE_BOOLEAN, st)
            else
              match check_types t1 TYPE_INTEGER with
              | .error e => .error e
              | .ok () =>
                match check_types t2 TYPE_INTEGER with
                | .error e => .error e
                | .ok () =>
                  let st :=
                    if op == TOK_GE then emit st (.gencmp .IF_ICMPGE)
                    else if op == TOK_GT then emit st (.gencmp .IF_ICMPGT)
                    else if op == TOK_LE then emit st (.gencmp .IF_ICMPLE)
                    else if op == TOK_LT then emit st (.gencmp .IF_ICMPLT)
                    else st
                  .ok (TYPE_BOOLEAN, st)
      else .ok (t1, st)

/-- `<simple> = ["-"] <term> {<addop> <term>}` as implemented: the
leading-minus branch parses one term, emits `INEG` and returns without
entering the addop loop. -/
def parse_simple : Nat → PState → Except CErr (Nat × PState)
  | 0, _ => .error .outOfFuel
  | fuel + 1, st =>
    if (peek st).type == TOK_MINUS then
      match parse_term fuel (advance st) with
      | .error e => .error e
      | .ok (t0, st) =>
        let st := emit st (.gen1 .INEG)
        if IS_ARRAY t0 then .error (.illegalArrayOp "unary minus")
        else
          match check_types t0 TYPE_INTEGER with
          | .error e => .error e
          | .ok () => .ok (t0, st)
    else
      match parse_term fuel st with
      | .error e => .error e
      | .ok (t0, st) =>
        if IS_ADDOP (peek st).type && IS_ARRAY t0 then
          .error (.illegalArrayOp (get_token_string (peek st).type))
        else parse_simple_more fuel t0 st

/-- The `while (IS_ADDOP(token.type))` loop of `parse_simple`. -/
def parse_simple_more : Nat → Nat → PState → Except CErr (Nat × PState)
  | 0, _, _ => .error .outOfFuel
  | fuel + 1, t0, st =>
    if IS_ADDOP (peek st).type then
      let op := (peek st).type
      match parse_term fuel (advance st) with
      | .error e => .error e
      | .ok (t1, st) =>
        if IS_ARRAY t1 then .error (.illegalArrayOp (get_token_string op))
        else if op == TOK_OR then
          match check_types t0 TYPE_BOOLEAN with
          | .error e => .error e
          | .ok () =>
            match check_types t1 TYPE_BOOLEAN with
            | .error e => .error e
            | .ok () => parse_simple_more fuel t0 (emit st (.gen1 .IOR))
        else
          match check_types t0 TYPE_INTEGER with
          | .error e => .error e
          | .ok () =>
            match check_types t1 TYPE_INTEGER with
            | .error e => .error e
            | .ok () =>
              let st := if op == TOK_PLUS then emit st (.gen1 .IADD)
                        else if op == TOK_MINUS then emit st (.gen1 .ISUB)
                        else st
              parse_simple_more fuel t0 st
    else .ok (t0, st)

/-- `<term> = <factor> {<mulop> <factor>}`. -/
def parse_term : Nat → PState → Except CErr (Nat × PState)
  | 0, _ => .error .outOfFuel
  | fuel + 1, st =>
    match parse_factor fuel st with
    | .error e => .error e
    | .ok (t0, st) =>
      if IS_MULOP (peek st).type && IS_ARRAY t0 then
        .error (.illegalArrayOp (get_token_string (peek st).type))
      else parse_term_more fuel t0 st

/-- The `while (IS_MULOP(token.type))` loop of `parse_term`: `and`
type-checks both operands as boolean and emits a single `IAND`; the
arithmetic operators check integers and emit `IMUL`/`IDIV`/`IREM`. -/
def parse_term_more : Nat → Nat → PState → Except CErr (Nat × PState)
  | 0, _, _ => .error .outOfFuel
  | fuel + 1, t0, st =>
    if IS_MULOP (peek st).type then
      let op := (peek st).type
      match parse_factor fuel (advance st) with
      | .error e => .error e
      | .ok (t1, st) =>
        if IS_ARRAY t1 then .error (.illegalArrayOp (get_token_string op))
        else if op == TOK_AND then
          match check_types t0 TYPE_BOOLEAN with
          | .error e => .error e
          | .ok () =>
            match check_types t1 TYPE_BOOLEAN with
            | .error e => .error e
            | .ok () => parse_term_more fuel t0 (emit st (.gen1 .IAND))
        else
          match check_types t0 TYPE_INTEGER with
          | .error e => .error e
          | .ok () =>
            match check_types t1 TYPE_INTEGER with
            | .error e => .error e
            | .ok () =>
              let st := if op == TOK_MUL then emit st (.gen1 .IMUL)
                        else if op == TOK_DIV then emit st (.gen1 .IDIV)
                        else if op == TOK_MOD then emit st (.gen1 .IREM)
                        else st
              parse_term_more fuel t0 st
    else .ok (t0, st)

/-- `<factor> = <id> [<index> | <arglist>] | <num> | "not" <factor> |
"true" | "false" | "(" <expr> ")"`. -/
def parse_factor : Nat → PState → Except CErr (Nat × PState)
  | 0, _ => .error .outOfFuel
  | fuel + 1, st =>
    let tk := peek st
    if tk.type == TOK_ID then
      match expect_id st with
      | .error e => .error e
      | .ok (vname, st) =>
        match find_name st.sym vname with
        | none => .error (.unknownId vname)
        | some prop =>
          if (peek st).type == TOK_LBRACK then
            if !IS_ARRAY prop.type then .error (.notAnArrayE vname)
            else
              let t0 := prop.type &&& 6
              match parse_index fuel vname st with
              | .error e => .error e
              | .ok st => .ok (t0, emit st (.gen1 .IALOAD))
          else if (peek st).type == TOK_LPAR then
            if !IS_FUNCTION prop.type then .error (.notAFunctionE vname)
            else
              let t0 := prop.type ^^^ TYPE_CALLABLE
              match parse_arglist fuel vname st with
              | .error e => .error e
              | .ok st => .ok (t0, emit st (.gencall vname))
          else if IS_FUNCTION prop.type then
            .error (.missingFuncArgList vname)
          else
            let t0 := prop.type
            let st := if IS_ARRAY_TYPE t0 then
                        emit st (.gen2 .ALOAD prop.offset)
                      else emit st (.gen2 .ILOAD prop.offset)
            .ok (t0, st)
    else if tk.type == TOK_NUM then
      .ok (TYPE_INTEGER, advance (emit st (.gen2 .LDC tk.value)))
    else if tk.type == TOK_NOT then
      match parse_factor fuel (advance st) with
      | .error e => .error e
      | .ok (t0, st) =>
        match check_types t0 TYPE_BOOLEAN with
        | .error e => .error e
        | .ok () => .ok (t0, emit (emit st (.gen2 .LDC 1)) (.gen1 .IXOR))
    else if tk.type == TOK_TRUE then
      .ok (TYPE_BOOLEAN, advance (emit st (.gen2 .LDC 1)))
    else if tk.type == TOK_FALSE then
      .ok (TYPE_BOOLEAN, advance (emit st (.gen2 .LDC 0)))
    else if tk.type == TOK_LPAR then
      match parse_expr fuel (advance st) with
      | .error e => .error e
      | .ok (t0, st) =>
        match expect TOK_RPAR st with
        | .error e => .error e
        | .ok st => .ok (t0, st)
    else .error .factorExpected

/-- `<index> = "[" <simple> "]"`: as implemented, the `ALOAD` of the
array reference is emitted only when the lookahead after `[` is a
numeric literal.  (`find_name`'s result is not checked in the source;
every caller has already resolved the name, and the embedding returns
`unreachableE` where C would read an uninitialised pointer.) -/
def parse_index : Nat → String → PState → Except CErr PState
  | 0, _, _ => .error .outOfFuel
  | fuel + 1, id, st =>
    match find_name st.sym id with
    | none => .error .unreachableE
    | some prop =>
      match expect TOK_LBRACK st with
      | .error e => .error e
      | .ok st =>
        let st := if (peek st).type == TOK_NUM then
                    emit st (.gen2 .ALOAD prop.offset)
                  else st
        match parse_simple fuel st with
        | .error e => .error e
        | .ok (t1, st) =>
          match check_types t1 TYPE_INTEGER with
          | .error e => .error e
          | .ok () => expect TOK_RBRACK st

/-- `<arglist> = "(" [<expr> {"," <expr>}] ")"` with arity and
per-parameter type checks. -/
def parse_arglist : Nat → String → PState → Except CErr PState
  | 0, _, _ => .error .outOfFuel
  | fuel + 1, id, st =>
    match find_name st.sym id with
    | none => .error (.unknownId id)
    | some prop =>
      match expect TOK_LPAR st with
      | .error e => .error e
      | .ok st =>
        if STARTS_EXPR (peek st).type then
          if prop.nparams == 0 then .error (.takesNoArgs id)
          else
            match parse_expr fuel st with
            | .error e => .error e
            | .ok (t1, st) =>
              match check_types t1 (prop.params.getD 0 TYPE_NONE) with
              | .error e => .error e
              | .ok () =>
                match parse_arglist_more fuel id prop 1 st with
                | .error e => .error e
                | .ok st => expect TOK_RPAR st
        else expect TOK_RPAR st

/-- The `while (token.type == TOK_COMMA)` loop of `parse_arglist`,
followed by the too-few-arguments check. -/
def parse_arglist_more :
    Nat → String → IDprop → Nat → PState → Except CErr PState
  | 0, _, _, _, _ => .error .outOfFuel
  | fuel + 1, id, prop, i, st =>
    if (peek st).type == TOK_COMMA then
      if prop.nparams ≤ i then .error (.tooManyArgs id)
      else
        match parse_expr fuel (advance st) with
        | .error e => .error e
        | .ok (t1, st) =>
          match check_types t1 (prop.params.getD i TYPE_NONE) with
          | .error e => .error e
          | .ok () => parse_arglist_more fuel id prop (i + 1) st
    else if i < prop.nparams then .error (.tooFewArgs id)
    else .ok st

/-- `<exit> = "exit" [<expr>]`: behaviour keyed on the `return_type`
global (procedure: expression fatal; function: expression required,
emitted with `ARETURN`/`IRETURN` and checked against the return base
type; otherwise, with an expression pending, nothing at all happens). -/
def parse_exit : Nat → PState → Except CErr PState
  | 0, _ => .error .outOfFuel
  | fuel + 1, st =>
    match expect TOK_EXIT st with
    | .error e => .error e
    | .ok st =>
      if STARTS_EXPR (peek st).type then
        if IS_PROCEDURE st.rt then .error .exitExprNotAllowedProc
        else if IS_FUNCTION st.rt then
          match parse_expr fuel st with
          | .error e => .error e
          | .ok (t1, st) =>
            let st := if IS_ARRAY_TYPE st.rt then emit st (.gen1 .ARETURN)
                      else emit st (.gen1 .IRETURN)
            let t2 := st.rt &&& 7
            match check_types t1 t2 with
            | .error e => .error e
            | .ok () => .ok st
        else .ok st
      else if IS_FUNCTION st.rt then .error .missingExitExprFunc
      else .ok (emit st (.gen1 .RETURN))

/-- `<if>` lowering as implemented: three labels are allocated up
front; the first guard branches (`IFEQ`) to `l1`, placed after the
first arm's `GOTO l3`; every elsif iteration first emits label `l2`,
then its guard, then `IFEQ l2` — the same, shared `l2`, placed before
the guard — and `GOTO l3` after its arm; `l3` is placed before
`end`. -/
def parse_if : Nat → PState → Except CErr PState
  | 0, _ => .error .outOfFuel
  | fuel + 1, st =>
    let (l1, st) := get_label st
    let (l2, st) := get_label st
    let (l3, st) := get_label st
    match expect TOK_IF st with
    | .error e => .error e
    | .ok st =>
      match parse_expr fuel st with
      | .error e => .error e
      | .ok (t1, st) =>
        let st := emit st (.gen2lab .IFEQ l1)
        match check_types t1 TYPE_BOOLEAN with
        | .error e => .error e
        | .ok () =>
          match expect TOK_THEN st with
          | .error e => .error e
          | .ok st =>
            match parse_statements fuel st with
            | .error e => .error e
            | .ok st =>
              let st := emit st (.gen2lab .GOTO l3)
              let st := emit st (.genlabel l1)
              match parse_if_elsifs fuel l2 l3 st with
              | .error e => .error e
              | .ok st =>
                match (if (peek st).type == TOK_ELSE then
                         parse_statements fuel (advance st)
                       else .ok st) with
                | .error e => .error e
                | .ok st =>
                  let st := emit st (.genlabel l3)
                  expect TOK_END st

/-- The `while (token.type == TOK_ELSIF)` loop of `parse_if`. -/
def parse_if_elsifs : Nat → Nat → Nat → PState → Except CErr PState
  | 0, _, _, _ => .error .outOfFuel
  | fuel + 1, l2, l3, st =>
    if (peek st).type == TOK_ELSIF then
      let st := emit st (.genlabel l2)
      match parse_expr fuel (advance st) with
      | .error e => .error e
      | .ok (t1, st) =>
        let st := emit st (.gen2lab .IFEQ l2)
        match check_types t1 TYPE_BOOLEAN with
        | .error e => .error e
        | .ok () =>
          match expect TOK_THEN st with
          | .error e => .error e
          | .ok st =>
            match parse_statements fuel st with
            | .error e => .error e
            | .ok st =>
              let st := emit st (.gen2lab .GOTO l3)
              parse_if_elsifs fuel l2 l3 st
    else .ok st

/-- `<name> = <id> (<arglist> | [<index>] "<-" (<expr> |
"array" <simple>))`. -/
def parse_name : Nat → PState → Except CErr PState
  | 0, _ => .error .outOfFuel
  | fuel + 1, st =>
    match expect_id st with
    | .error e => .error e
    | .ok (id, st) =>
      match find_name st.sym id with
      | none => .error (.unknownId id)
      | some prop =>
        if (peek st).type == TOK_LPAR then
          if !IS_PROCEDURE prop.type then .error (.notAProcedureE id)
          else
            match parse_arglist fuel id st with
            | .error e => .error e
            | .ok st => .ok (emit st (.gencall id))
        else if (peek st).type == TOK_LBRACK ||
                (peek st).type == TOK_GETS then
          if IS_CALLABLE_TYPE prop.type then .error (.notAVariableE id)
          else
            match (if (peek st).type == TOK_LBRACK then
                     if !IS_ARRAY prop.type then
                       Except.error (CErr.notAnArrayE id)
                     else
                       match parse_index fuel id st with
                       | .error e => .error e
                       | .ok st =>
                         .ok (prop.type ^^^ TYPE_ARRAY, false, true, st)
                   else if IS_ARRAY prop.type then
                     .ok (prop.type, true, false, st)
                   else .ok (prop.type, false, false, st) :
                     Except CErr (Nat × Bool × Bool × PState)) with
            | .error e => .error e
            | .ok (proptype, is_array, is_indexed, st) =>
              match expect TOK_GETS st with
              | .error e => .error e
              | .ok st =>
                if STARTS_EXPR (peek st).type then
                  match parse_expr fuel st with
                  | .error e => .error e
                  | .ok (t1, st) =>
                    if !IS_VARIABLE proptype then .error (.notAVariableE id)
                    else
                      match (if is_array then check_types t1 proptype
                             else if IS_ARRAY t1 then
                               if is_indexed then check_types t1 proptype
                               else .error (.notAnArrayE id)
                             else check_types t1 proptype) with
                      | .error e => .error e
                      | .ok () =>
                        let st := if is_array then
                                    emit st (.gen2 .ASTORE prop.offset)
                                  else st
                        let st := if !is_indexed && !is_array then
                                    emit st (.gen2 .ISTORE prop.offset)
                                  else st
                        let st := if is_indexed then emit st (.gen1 .IASTORE)
                                  else st
                        .ok st
                else if (peek st).type == TOK_ARRAY then
                  match (if is_indexed then check_types prop.type proptype
                         else .ok ()) with
                  | .error e => .error e
                  | .ok () =>
                    if !IS_ARRAY prop.type then .error (.notAnArrayE id)
                    else
                      match parse_simple fuel (advance st) with
                      | .error e => .error e
                      | .ok (t1, st) =>
                        match check_types t1 TYPE_INTEGER with
                        | .error e => .error e
                        | .ok () =>
                          .ok (emit (emit st (.gennewarray T_INT))
                                (.gen2 .ASTORE prop.offset))
                else .error .arrayAllocOrExprExpected
        else .error .argListOrAssignExpected

/-- `<read> = "read" <id> [<index>]`. -/
def parse_read : Nat → PState → Except CErr PState
  | 0, _ => .error .outOfFuel
  | fuel + 1, st =>
    match expect TOK_READ st with
    | .error e => .error e
    | .ok st =>
      match expect_id st with
      | .error e => .error e
      | .ok (vname, st) =>
        match find_name st.sym vname with
        | none => .error (.unknownId vname)
        | some prop =>
          match (if (peek st).type == TOK_LBRACK then
                   if !IS_ARRAY prop.type then
                     Except.error (CErr.notAnArrayE vname)
                   else parse_index fuel vname st
                 else if IS_ARRAY prop.type then
                   .error (.scalarExpected vname)
                 else .ok st) with
          | .error e => .error e
          | .ok st =>
            let st := if IS_INTEGER_TYPE prop.type then
                        emit st (.genread TYPE_INTEGER)
                      else emit st (.genread TYPE_BOOLEAN)
            let st := if IS_ARRAY_TYPE prop.type then
                        emit st (.gen1 .IASTORE)
                      else emit st (.gen2 .ISTORE prop.offset)
            .ok st

/-- `<while> = "while" <expr> "do" <statements> "end"`. -/
def parse_while : Nat → PState → Except CErr PState
  | 0, _ => .error .outOfFuel
  | fuel + 1, st =>
    let (l1, st) := get_label st
    let (l2, st) := get_label st
    match expect TOK_WHILE st with
    | .error e => .error e
    | .ok st =>
      let st := emit st (.genlabel l1)
      match parse_expr fuel st with
      | .error e => .error e
      | .ok (t1, st) =>
        let st := emit st (.gen2lab .IFEQ l2)
        match check_types t1 TYPE_BOOLEAN with
        | .error e => .error e
        | .ok () =>
          match expect TOK_DO st with
          | .error e => .error e
          | .ok st =>
            match parse_statements fuel st with
            | .error e => .error e
            | .ok st =>
              match expect TOK_END st with
              | .error e => .error e
              | .ok st =>
                .ok (emit (emit st (.gen2lab .GOTO l1)) (.genlabel l2))

/-- One item of `<write>`: a string literal or a (non-array)
expression; `ctx` is the operator name used in the illegal-array
diagnostic ("write" for the first item, "&" for the rest). -/
def parse_write_item : Nat → String → PState → Except CErr PState
  | 0, _, _ => .error .outOfFuel
  | fuel + 1, ctx, st =>
    if (peek st).type == TOK_STR then
      .ok (advance (emit st (.genprintstr (peek st).str)))
    else if STARTS_EXPR (peek st).type then
      match parse_expr fuel st with
      | .error e => .error e
      | .ok (t1, st) =>
        let st := emit st (.genprint t1)
        if IS_ARRAY t1 then .error (.illegalArrayOp ctx)
        else .ok st
    else .error .exprOrStringExpected

/-- The `while (token.type == TOK_AMPERSAND)` loop of `parse_write`. -/
def parse_write_more : Nat → PState → Except CErr PState
  | 0, _ => .error .outOfFuel
  | fuel + 1, st =>
    if (peek st).type == TOK_AMPERSAND then
      match parse_write_item fuel "&" (advance st) with
      | .error e => .error e
      | .ok st => parse_write_more fuel st
    else .ok st

/-- `<write> = "write" (<string> | <expr>) {"&" (<string> | <expr>)}`. -/
def parse_write : Nat → PState → Except CErr PState
  | 0, _ => .error .outOfFuel
  | fuel + 1, st =>
    match expect TOK_WRITE st with
    | .error e => .error e
    | .ok st =>
      match parse_write_item fuel "write" st with
      | .error e => .error e
      | .ok st => parse_write_more fuel st

/-- `<statement>` dispatch on the lookahead. -/
def parse_statement : Nat → PState → Except CErr PState
  | 0, _ => .error .outOfFuel
  | fuel + 1, st =>
    if (peek st).type == TOK_EXIT then parse_exit fuel st
    else if (peek st).type == TOK_IF then parse_if fuel st
    else if (peek st).type == TOK_ID then parse_name fuel st
    else if (peek st).type == TOK_READ then parse_read fuel st
    else if (peek st).type == TOK_WHILE then parse_while fuel st
    else if (peek st).type == TOK_WRITE then parse_write fuel st
    else .error .statementExpected

/-- `<statements> = "chill" | <statement> {";" <statement>}`. -/
def parse_statements : Nat → PState → Except CErr PState
  | 0, _ => .error .outOfFuel
  | fuel + 1, st =>
    if (peek st).type == TOK_CHILL then .ok (advance st)
    else if IS_STATEMENT (peek st).type then
      match parse_statement fuel st with
      | .error e => .error e
      | .ok st => parse_statements_more fuel st
    else .error .statementExpected

/-- The `while (token.type == TOK_SEMICOLON)` loop of
`parse_statements`. -/
def parse_statements_more : Nat → PState → Except CErr PState
  | 0, _ => .error .outOfFuel
  | fuel + 1, st =>
    if (peek st).type == TOK_SEMICOLON then
      match parse_statement fuel (advance st) with
      | .error e => .error e
      | .ok st => parse_statements_more fuel st
    else .ok st

end

/- ------------------------------------------------------------------ -/
/- concrete tokens for the claim evaluations                           -/
/- ------------------------------------------------------------------ -/

def tk (t : Nat) : Token := { type := t }

def tkNum (n : Nat) : Token := { type := TOK_NUM, value := n }

def tkId (s : String) : Token := { type := TOK_ID, lexeme := s }

/- ------------------------------------------------------------------ -/
/- C1                                                                  -/
/- ------------------------------------------------------------------ -/

/-- `if true then chill elsif true then chill elsif true then chill
end`, entered with a fresh label counter. -/
def c1_state : PState :=
  { toks := [tk TOK_IF, tk TOK_TRUE, tk TOK_THEN, tk TOK_CHILL,
             tk TOK_ELSIF, tk TOK_TRUE, tk TOK_THEN, tk TOK_CHILL,
             tk TOK_ELSIF, tk TOK_TRUE, tk TOK_THEN, tk TOK_CHILL,
             tk TOK_END],
    sym := init_symbol_table }

/-- The instruction sequence `parse_if` emits for `c1_state`
(labels allocated: `l1 = 0`, `l2 = 1`, `l3 = 2`). -/
def c1_expected : List Instr :=
  [.gen2 .LDC 1, .gen2lab .IFEQ 0, .gen2lab .GOTO 2, .genlabel 0,
   .genlabel 1, .gen2 .LDC 1, .gen2lab .IFEQ 1, .gen2lab .GOTO 2,
   .genlabel 1, .gen2 .LDC 1, .gen2lab .IFEQ 1, .gen2lab .GOTO 2,
   .genlabel 2]

/-- C1: evaluating `parse_if` on an if with two elsifs shows the
claimed lowering does not hold.  The emitted sequence places the
shared elsif label `l2 = 1` at the *start of each elsif's own guard*
(positions 4 and 8), each elsif guard's `IFEQ 1` (positions 6 and 10)
therefore branches to a label emitted *before* that same guard rather
than at the start of the next alternative, and `l2` is emitted twice —
not "distinct and emitted exactly once".  (Only the first guard's
`IFEQ 0` is placed correctly, and the `GOTO l3` after each arm does
match the claim.) -/
theorem c1_elsif_label_eval :
    parse_if 20 c1_state =
      .ok { toks := [], sym := init_symbol_table, out := c1_expected,
            labelc := 3, rt := TYPE_NONE } ∧
    (c1_expected.filter (· == Instr.genlabel 1)).length = 2 ∧
    c1_expected.take 7 =
      [.gen2 .LDC 1, .gen2lab .IFEQ 0, .gen2lab .GOTO 2, .genlabel 0,
       .genlabel 1, .gen2 .LDC 1, .gen2lab .IFEQ 1] := by
  exact ⟨rfl, by decide, by decide⟩

/- ------------------------------------------------------------------ -/
/- C3                                                                  -/
/- ------------------------------------------------------------------ -/

/-- The simple-expression `- 1 + 2`. -/
def c3_state : PState :=
  { toks := [tk TOK_MINUS, tkNum 1, tk TOK_PLUS, tkNum 2],
    sym := init_symbol_table }

/-- The same expression without the leading minus, `1 + 2`. -/
def c3_state_nominus : PState :=
  { toks := [tkNum 1, tk TOK_PLUS, tkNum 2], sym := init_symbol_table }

/-- C3: on `- 1 + 2`, `parse_simple` stops after negating the first
term: it returns with `+ 2` still unconsumed (the leading-minus branch
of the source has no `{addop term}` loop), so the grammar shape
`["-"] term { addop term }` is *not* accepted after a leading minus —
the caller will then fail on the dangling `+`.  For contrast, without
the minus the same tail `+ 2` is consumed and `IADD` emitted. -/
theorem c3_leading_minus_eval :
    parse_simple 20 c3_state =
      .ok (TYPE_INTEGER,
        { toks := [tk TOK_PLUS, tkNum 2], sym := init_symbol_table,
          out := [.gen2 .LDC 1, .gen1 .INEG], labelc := 0,
          rt := TYPE_NONE }) ∧
    parse_simple 20 c3_state_nominus =
      .ok (TYPE_INTEGER,
        { toks := [], sym := init_symbol_table,
          out := [.gen2 .LDC 1, .gen2 .LDC 2, .gen1 .IADD], labelc := 0,
          rt := TYPE_NONE }) := by
  exact ⟨rfl, rfl⟩

/- ------------------------------------------------------------------ -/
/- C4                                                                  -/
/- ------------------------------------------------------------------ -/

/-- Symbol table declaring `a : integer array` (slot 1) and
`i : integer` (slot 2). -/
def c4_sym : SymTab :=
  { table := [("a", { type := 5, offset := 1, nparams := 0, params := [] }),
              ("i", { type := 4, offset := 2, nparams := 0, params := [] })],
    saved := none, curr_offset := 3 }

/-- The assignment `a[3] <- 7` (index starts with a numeric literal). -/
def c4_state_num : PState :=
  { toks := [tkId "a", tk TOK_LBRACK, tkNum 3, tk TOK_RBRACK,
             tk TOK_GETS, tkNum 7],
    sym := c4_sym }

/-- The assignment `a[i] <- 7` (index starts with an identifier). -/
def c4_state_id : PState :=
  { toks := [tkId "a", tk TOK_LBRACK, tkId "i", tk TOK_RBRACK,
             tk TOK_GETS, tkNum 7],
    sym := c4_sym }

/-- C4: for `a[3] <- 7` the compiler emits
`ALOAD 1; LDC 3; LDC 7; IASTORE` — array reference before the index
code, as the claim says.  But for `a[i] <- 7` it emits only
`ILOAD 2; LDC 7; IASTORE`: `parse_index` guards the
`gen_2(JVM_ALOAD, ...)` with `token.type == TOK_NUM`, so no `ALOAD` of
the array reference is emitted when the index expression does not
begin with a numeric literal, refuting "for every index expression".
(The `<- expr` parse and trailing `IASTORE` do hold in both runs.) -/
theorem c4_index_aload_eval :
    parse_name 20 c4_state_num =
      .ok { toks := [], sym := c4_sym,
            out := [.gen2 .ALOAD 1, .gen2 .LDC 3, .gen2 .LDC 7,
                    .gen1 .IASTORE],
            labelc := 0, rt := TYPE_NONE } ∧
    parse_name 20 c4_state_id =
      .ok { toks := [], sym := c4_sym,
            out := [.gen2 .ILOAD 2, .gen2 .LDC 7, .gen1 .IASTORE],
            labelc := 0, rt := TYPE_NONE } := by
  exact ⟨rfl, rfl⟩

/- ------------------------------------------------------------------ -/
/- C9                                                                  -/
/- ------------------------------------------------------------------ -/

theorem peek_emit (st : PState) (i : Instr) : peek (emit st i) = peek st := rfl

/-- `true and false`. -/
def c9_and_state : PState :=
  { toks := [tk TOK_TRUE, tk TOK_AND, tk TOK_FALSE],
    sym := init_symbol_table }

/-- `true or false`. -/
def c9_or_state : PState :=
  { toks := [tk TOK_TRUE, tk TOK_OR, tk TOK_FALSE],
    sym := init_symbol_table }

/-- C9: no short-circuit lowering.  (1) Whenever a term parses a
boolean factor emitting `c1`, sees `and`, and parses a second boolean
factor emitting `c2`, the term emits exactly
`c1 ++ c2 ++ [IAND]` — both operands' code runs unconditionally and
the single `IAND` follows with no branch between or after the
operands.  (2) The same at the simple level for `or` and `IOR`.
(3) Concretely, `true and false` emits push 1, push 0, `IAND`, and
`true or false` emits push 1, push 0, `IOR`. -/
theorem c9_no_short_circuit :
    (∀ (g : Nat) (st st1 st2 : PState) (c1 c2 : List Instr),
      parse_factor (g+2) st = .ok (TYPE_BOOLEAN, st1) →
      st1.out = st.out ++ c1 →
      (peek st1).type = TOK_AND →
      parse_factor (g+1) (advance st1) = .ok (TYPE_BOOLEAN, st2) →
      st2.out = st1.out ++ c2 →
      IS_MULOP (peek st2).type = false →
      parse_term (g+3) st = .ok (TYPE_BOOLEAN,
        { st2 with out := st.out ++ (c1 ++ (c2 ++ [Instr.gen1 .IAND])) })) ∧
    (∀ (g : Nat) (st st1 st2 : PState) (c1 c2 : List Instr),
      ((peek st).type == TOK_MINUS) = false →
      parse_term (g+3) st = .ok (TYPE_BOOLEAN, st1) →
      st1.out = st.out ++ c1 →
      (peek st1).type = TOK_OR →
      parse_term (g+2) (advance st1) = .ok (TYPE_BOOLEAN, st2) →
      st2.out = st1.out ++ c2 →
      IS_ADDOP (peek st2).type = false →
      parse_simple (g+4) st = .ok (TYPE_BOOLEAN,
        { st2 with out := st.out ++ (c1 ++ (c2 ++ [Instr.gen1 .IOR])) })) ∧
    parse_term 3 c9_and_state = .ok (TYPE_BOOLEAN,
      { toks := [], sym := init_symbol_table,
        out := [.gen2 .LDC 1, .gen2 .LDC 0, .gen1 .IAND],
        labelc := 0, rt := TYPE_NONE }) ∧
    parse_simple 4 c9_or_state = .ok (TYPE_BOOLEAN,
      { toks := [], sym := init_symbol_table,
        out := [.gen2 .LDC 1, .gen2 .LDC 0, .gen1 .IOR],
        labelc := 0, rt := TYPE_NONE }) := by
  refine ⟨?_, ?_, rfl, rfl⟩
  · intro g st st1 st2 c1 c2 h1 ho1 hp h2 ho2 hm
    have e1 : parse_term (g+3) st =
        parse_term_more (g+2) TYPE_BOOLEAN st1 := by
      show parse_term ((g+2)+1) st = _
      simp only [parse_term, h1]
      rw [hp]
      rfl
    have e2 : parse_term_more (g+2) TYPE_BOOLEAN st1 =
        parse_term_more (g+1) TYPE_BOOLEAN (emit st2 (.gen1 .IAND)) := by
      show parse_term_more ((g+1)+1) TYPE_BOOLEAN st1 = _
      simp only [parse_term_more]
      rw [hp, h2]
      rfl
    have e3 : parse_term_more (g+1) TYPE_BOOLEAN (emit st2 (.gen1 .IAND)) =
        .ok (TYPE_BOOLEAN, emit st2 (.gen1 .IAND)) := by
      show parse_term_more (g+1) _ _ = _
      simp only [parse_term_more]
      rw [peek_emit, hm]
      rfl
    rw [e1, e2, e3]
    have hout : st2.out ++ [Instr.gen1 .IAND] =
        st.out ++ (c1 ++ (c2 ++ [Instr.gen1 .IAND])) := by
      rw [ho2, ho1]
      simp [List.append_assoc]
    rw [show emit st2 (.gen1 .IAND) =
        { st2 with out := st2.out ++ [Instr.gen1 .IAND] } from rfl, hout]
  · intro g st st1 st2 c1 c2 hnm h1 ho1 hp h2 ho2 ha
    have e1 : parse_simple (g+4) st =
        parse_simple_more (g+3) TYPE_BOOLEAN st1 := by
      show parse_simple ((g+3)+1) st = _
      simp only [parse_simple, hnm, h1]
      rw [hp]
      rfl
    have e2 : parse_simple_more (g+3) TYPE_BOOLEAN st1 =
        parse_simple_more (g+2) TYPE_BOOLEAN (emit st2 (.gen1 .IOR)) := by
      show parse_simple_more ((g+2)+1) TYPE_BOOLEAN st1 = _
      simp only [parse_simple_more]
      rw [hp, h2]
      rfl
    have e3 : parse_simple_more (g+2) TYPE_BOOLEAN (emit st2 (.gen1 .IOR)) =
        .ok (TYPE_BOOLEAN, emit st2 (.gen1 .IOR)) := by
      show parse_simple_more ((g+1)+1) _ _ = _
      simp only [parse_simple_more]
      rw [peek_emit, ha]
      rfl
    rw [e1, e2, e3]
    have hout : st2.out ++ [Instr.gen1 .IOR] =
        st.out ++ (c1 ++ (c2 ++ [Instr.gen1 .IOR])) := by
      rw [ho2, ho1]
      simp [List.append_assoc]
    rw [show emit st2 (.gen1 .IOR) =
        { st2 with out := st2.out ++ [Instr.gen1 .IOR] } from rfl, hout]

/-- The state after `parse_factor` consumed `true` in `c9_and_state`. -/
def c9_and_mid : PState :=
  { toks := [tk TOK_AND, tk TOK_FALSE], sym := init_symbol_table,
    out := [.gen2 .LDC 1] }

/-- The state after both factors of `c9_and_state` are consumed. -/
def c9_and_done : PState :=
  { toks := [], sym := init_symbol_table,
    out := [.gen2 .LDC 1, .gen2 .LDC 0] }

/-- The state after `parse_term` consumed `true` in `c9_or_state`. -/
def c9_or_mid : PState :=
  { toks := [tk TOK_OR, tk TOK_FALSE], sym := init_symbol_table,
    out := [.gen2 .LDC 1] }

/-- The state after both terms of `c9_or_state` are consumed. -/
def c9_or_done : PState :=
  { toks := [], sym := init_symbol_table,
    out := [.gen2 .LDC 1, .gen2 .LDC 0] }

/-- C9 witness: the two general conjuncts applied at `true and false`
and `true or false` with all hypotheses discharged on the concrete
states. -/
theorem c9_no_short_circuit_witness :
    parse_term 3 c9_and_state = .ok (TYPE_BOOLEAN,
      { c9_and_done with
        out := [] ++ ([.gen2 .LDC 1] ++ ([.gen2 .LDC 0] ++
          [Instr.gen1 .IAND])) }) ∧
    parse_simple 4 c9_or_state = .ok (TYPE_BOOLEAN,
      { c9_or_done with
        out := [] ++ ([.gen2 .LDC 1] ++ ([.gen2 .LDC 0] ++
          [Instr.gen1 .IOR])) }) := by
  constructor
  · exact c9_no_short_circuit.1 0 c9_and_state c9_and_mid c9_and_done
      [.gen2 .LDC 1] [.gen2 .LDC 0] rfl rfl rfl rfl rfl rfl
  · exact c9_no_short_circuit.2.1 0 c9_or_state c9_or_mid c9_or_done
      [.gen2 .LDC 1] [.gen2 .LDC 0] rfl rfl rfl rfl rfl rfl rfl

/- ------------------------------------------------------------------ -/
/- C10                                                                 -/
/- ------------------------------------------------------------------ -/

theorem advance_rt (st : PState) : (advance st).rt = st.rt := rfl

/-- C10: in the main program body `return_type` is `TYPE_NONE`: the C
global is zero-initialised, `parse_funcdef` resets it to `TYPE_NONE`
both on entry and after each successful definition, and nothing else
runs between the last funcdef and `parse_body` in `parse_program`.
`TYPE_NONE` satisfies neither `IS_PROCEDURE` (first two conjuncts) nor
`IS_FUNCTION`, so for any `exit` whose next token starts an
expression, `parse_exit` returns successfully having consumed only the
`exit` token: the state is exactly `advance st` — the expression is
not parsed, nothing is emitted (no return instruction), and no error
is raised. -/
theorem c10_exit_main_noop :
    IS_PROCEDURE TYPE_NONE = false ∧
    IS_FUNCTION TYPE_NONE = false ∧
    ∀ (f : Nat) (st : PState), st.rt = TYPE_NONE →
      (peek st).type = TOK_EXIT →
      STARTS_EXPR (peek (advance st)).type = true →
      parse_exit (f+1) st = .ok (advance st) := by
  refine ⟨rfl, rfl, ?_⟩
  intro f st hrt hpk hse
  have hexp : expect TOK_EXIT st = .ok (advance st) := by
    unfold expect
    rw [hpk]
    rfl
  have hrt' : (advance st).rt = TYPE_NONE := by rw [advance_rt, hrt]
  show parse_exit (f+1) st = _
  simp only [parse_exit, hexp, hse, hrt']
  rfl

/-- The main-body state `exit 5 ...` with `return_type = TYPE_NONE`. -/
def c10_state : PState :=
  { toks := [tk TOK_EXIT, tkNum 5], sym := init_symbol_table }

/-- C10 witness: on `exit 5` in the main body, `parse_exit` consumes
exactly the `exit` token, leaves the `5` pending and emits nothing. -/
theorem c10_exit_main_noop_witness :
    parse_exit 1 c10_state = .ok (advance c10_state) ∧
    advance c10_state =
      { toks := [tkNum 5], sym := init_symbol_table, out := [],
        labelc := 0, rt := TYPE_NONE } := by
  exact ⟨c10_exit_main_noop.2.2 0 c10_state rfl rfl rfl, rfl⟩
